import Mathlib

/-!
Verification of the `tyrm/ph-weather` service (`src/main.go`) against its
natural-language specification.

The Go source is shallowly embedded: pure helpers become Lean functions;
the interactions with external collaborators (the redis cache, the upstream
HTTP endpoint, the JSON decoder of the standard library) are passed in as
explicit oracle values, and the observable effects of a handler run (response
status, body, content type, emitted error documents, the attempted cache
write, whether the upstream was invoked, log lines) are collected in a result
structure.  `log.Fatal` (which terminates the Go process) is modelled by the
`fatal` constructor of `ProcResult`.
-/

/-- Outcome of running a piece of Go code that may call `log.Fatal`:
either the process terminates (`fatal`, carrying the logged message)
or the code returns a value. -/
inductive ProcResult (α : Type) where
  | fatal (msg : String) : ProcResult α
  | ok (a : α) : ProcResult α
deriving DecidableEq, Repr

/-- Decimal digits of a natural number, `go`-style helper for `atoi`. -/
def digitVal (c : Char) : Option Nat :=
  if c.isDigit then some (c.toNat - 48) else none

/-- Parse a nonempty all-digit character list as a natural number. -/
def parseDigits : List Char → Option Nat
  | [] => none
  | cs => cs.foldl (fun acc c => match acc, digitVal c with
      | some n, some d => some (n * 10 + d)
      | _, _ => none) (some 0)

/-- The largest value of the 64-bit Go `int` that `strconv.Atoi` (that is,
`ParseInt(s, 10, 0)` on this 64-bit build) accepts. -/
def goIntMax : Int := 9223372036854775807

/-- The smallest value of the 64-bit Go `int`. -/
def goIntMin : Int := -9223372036854775808

/-- Model of Go `strconv.Atoi`: the returned value together with the
returned error.  An optional sign followed by at least one decimal digit
parses; anything else is rejected with value `0`; a numerically valid
string outside the 64-bit `int` range is rejected with the clamped
boundary value.  The error strings carry the formatted `*strconv.NumError`
text. -/
def goAtoi (s : String) : Int × Option String :=
  match s.toList with
  | [] => (0, some ("strconv.Atoi: parsing \"" ++ s ++ "\": invalid syntax"))
  | c :: cs =>
    let ds := if c = '-' ∨ c = '+' then cs else c :: cs
    match parseDigits ds with
    | none => (0, some ("strconv.Atoi: parsing \"" ++ s ++ "\": invalid syntax"))
    | some n =>
      let v : Int := if c = '-' then -(n : Int) else (n : Int)
      if v < goIntMin then
        (goIntMin, some ("strconv.Atoi: parsing \"" ++ s ++ "\": value out of range"))
      else if goIntMax < v then
        (goIntMax, some ("strconv.Atoi: parsing \"" ++ s ++ "\": value out of range"))
      else (v, none)

/-- The cleanly parsed value of `strconv.Atoi`: `some` exactly when the Go
call returns a `nil` error (well-formed and within the `int` range). -/
def atoi (s : String) : Option Int :=
  match goAtoi s with
  | (v, none) => some v
  | (_, some _) => none

/-- The value the Go code actually uses after `v, err := strconv.Atoi(s)`
when it ignores `err`: `0` on a syntax error, the clamped boundary value
on a range error. -/
def atoiIgnoreErr (s : String) : Int := (goAtoi s).1

/-- `Config` struct of `main.go`.  (The field holding the redis key
pre-string is named `redisPfx` here; it embeds the Go field `RedisPrefix`.) -/
structure Config where
  httpPort : String
  redisAddr : String
  redisDB : Int
  redisPassword : String
  redisPfx : String
  wUndergroundKey : String
  wUndergroundLocation : String
deriving DecidableEq, Repr

/-- Go `fmt.Sprintf("%v", xs)` on a `[]string`: elements joined by single
spaces inside square brackets. -/
def goFmtStrSlice (xs : List String) : String :=
  "[" ++ String.intercalate " " xs ++ "]"

/-- The environment: `os.Getenv` returns `""` for unset variables, so an
environment is a total map from names to strings with `""` meaning absent. -/
def EnvMap : Type := String → String

/-- The required-variable names missing from an environment, accumulated in
the order the source checks them: REDIS_ADDR, then WU_KEY, then WU_LOCATION. -/
def missingEnvOf (env : EnvMap) : List String :=
  (if env "REDIS_ADDR" = "" then ["REDIS_ADDR"] else []) ++
  (if env "WU_KEY" = "" then ["WU_KEY"] else []) ++
  (if env "WU_LOCATION" = "" then ["WU_LOCATION"] else [])

/-- `collectConfig` of `main.go`.  Reads each variable in source order,
applying defaults for the optional ones; `strconv.Atoi` failure (syntax or
range) on a set `REDIS_DB` hits `panicOnError`, whose
`log.Fatalf("%s: %s", msg, err)` appends the underlying error text; a
nonempty missing-variable list hits `log.Fatal` with the full list
formatted by `fmt.Sprintf("%v")`. -/
def collectConfig (env : EnvMap) : ProcResult Config :=
  let httpPort := if env "HTTP_PORT" = "" then ":8080" else ":" ++ env "HTTP_PORT"
  let dbRes : ProcResult Int :=
    if env "REDIS_DB" = "" then .ok 0
    else match goAtoi (env "REDIS_DB") with
      | (_, some e) => .fatal ("Error parsing REDIS_DB: " ++ e)
      | (i, none) => .ok i
  match dbRes with
  | .fatal m => .fatal m
  | .ok db =>
    let pfx := if env "REDIS_PREFIX" = "" then "ph:" else env "REDIS_PREFIX"
    let missing := missingEnvOf env
    if missing ≠ [] then
      .fatal ("Environment variables missing: " ++ goFmtStrSlice missing)
    else
      .ok { httpPort := httpPort
            redisAddr := env "REDIS_ADDR"
            redisDB := db
            redisPassword := env "REDIS_PASSWORD"
            redisPfx := pfx
            wUndergroundKey := env "WU_KEY"
            wUndergroundLocation := env "WU_LOCATION" }

/-- Go `time.Month.String()`: the spelled-out English month name for
1..12, and the `"%!Month(n)"` fallback outside that range. -/
def monthName (m : Int) : String :=
  if m = 1 then "January" else
  if m = 2 then "February" else
  if m = 3 then "March" else
  if m = 4 then "April" else
  if m = 5 then "May" else
  if m = 6 then "June" else
  if m = 7 then "July" else
  if m = 8 then "August" else
  if m = 9 then "September" else
  if m = 10 then "October" else
  if m = 11 then "November" else
  if m = 12 then "December" else
  "%!Month(" ++ toString m ++ ")"

/-- The server's local date at request time: `today.Year()`, `today.Month()`,
`today.Day()`. -/
structure Date where
  year : Int
  month : Int
  day : Int
deriving DecidableEq, Repr

/-- The cache key computed by `handleSunPhase`:
`fmt.Sprintf("%sweather:sun_phase:%d-%s-%d", prefixArg, year, month, day)`
where the month is a `time.Month` rendered by its `String()` method. -/
def mkCacheKey (pfx : String) (d : Date) : String :=
  pfx ++ "weather:sun_phase:" ++ toString d.year ++ "-" ++
    monthName d.month ++ "-" ++ toString d.day

/-- `WUTime` struct: decimal-string hour and minute fields. -/
structure WUTime where
  hour : String
  minute : String
deriving DecidableEq, Repr

/-- `WUSunPhase` struct. -/
structure WUSunPhase where
  sunrise : WUTime
  sunset : WUTime
deriving DecidableEq, Repr

/-- `WUAstronomy` struct (the `response` and `moon_phase` raw-message
fields carry no information the program reads and are omitted). -/
structure WUAstronomy where
  sunPhase : WUSunPhase
deriving DecidableEq, Repr

/-- The zero value of `WUAstronomy`, which `json.Unmarshal` leaves in place
when it can decode nothing at all (in particular on a syntactically
invalid body, which Go rejects before writing any field). -/
def WUAstronomy.zero : WUAstronomy :=
  { sunPhase := { sunrise := { hour := "", minute := "" }
                  sunset := { hour := "", minute := "" } } }

/-- The URL `getWUApiRepose` builds and passes to `http.Get`. -/
def wuURL (key feature location : String) : String :=
  "https://api.wunderground.com/api/" ++ key ++ "/" ++ feature ++ "/q/" ++
    location ++ ".json"

/-- `getWUApiRepose` of `main.go`.  `httpGet` is the oracle for `http.Get`
on the built URL (`error e` for a transport error), `readAll` the oracle
for `ioutil.ReadAll` on the response body.  On either error the source
assigns `resError` and then calls `log.Fatal(err)` before the `return`
statement runs, so the process terminates (`fatal`); only the success path
returns, and it returns a `nil` error. -/
def getWUApiRepose (key feature location : String)
    (httpGet : String → Except String Unit) (readAll : Except String String) :
    ProcResult (String × Option String) :=
  let url := wuURL key feature location
  match httpGet url with
  | .error e => .fatal e
  | .ok _ =>
    match readAll with
    | .error e => .fatal e
    | .ok body => .ok (body, none)

/-- `getWUAstronomy` of `main.go`.  `decode` is the oracle for
`json.Unmarshal` into a fresh zero-valued `WUAstronomy`: it returns the
resulting struct and the optional decoding error.  A syntactically invalid
body leaves the struct zero-valued; valid JSON with a mismatched field
type is populated as far as possible (the documented `Unmarshal` behavior:
the offending field is skipped, the rest filled in).  The source ignores
the error, so whatever the decoder populated is returned with a `nil`
error. -/
def getWUAstronomy (key feature location : String)
    (decode : String → WUAstronomy × Option String)
    (httpGet : String → Except String Unit) (readAll : Except String String) :
    ProcResult (WUAstronomy × Option String) :=
  match getWUApiRepose key feature location httpGet readAll with
  | .fatal m => .fatal m
  | .ok (_, some e) => .ok (WUAstronomy.zero, some e)
  | .ok (body, none) => .ok ((decode body).1, none)

/-- The `codeTitle` map of `makeErrorResponse` (Go map lookup yields the
zero value `""` for absent keys). -/
def codeTitle (code : Int) : String :=
  if code = 1 then "Malformed JSON Body" else
  if code = 2201 then "Missing Required Attribute" else
  if code = 2202 then "Requested Relationship Not Found" else ""

/-- The `statusTitle` map of `makeErrorResponse`. -/
def statusTitle (status : Int) : String :=
  if status = 400 then "Bad Request" else
  if status = 401 then "Unauthorized" else
  if status = 404 then "Not Found" else
  if status = 405 then "Method Not Allowed" else
  if status = 406 then "Not Acceptable" else
  if status = 409 then "Conflict" else
  if status = 415 then "Unsupported Media Type" else
  if status = 422 then "Unprocessable Entity" else
  if status = 500 then "Internal Server Error" else ""

/-- A `jsonapi.ErrorObject`.  `code = ""` is the zero value and is omitted
from the serialized form (`omitempty`), i.e. the field is absent. -/
structure ErrorObject where
  title : String
  detail : String
  status : String
  code : String
deriving DecidableEq, Repr

/-- The error document `makeErrorResponse` builds from a status, a detail
string and an optional (zero = absent) domain code.  The transport effects
(WriteHeader, serialization) are applied by the handler model. -/
def makeErrorResponse (status : Int) (detail : String) (code : Int) : ErrorObject :=
  let title := if code = 0 then statusTitle status else codeTitle code
  let codeStr := if code = 0 then "" else toString code
  { title := title, detail := detail, status := toString status, code := codeStr }

/-- `SunPhaseRespose` struct of `main.go` (source spelling kept), with the
jsonapi tags: primary type `sun_phase`, attributes `sunrise_m`, `sunrise_h`,
`sunset_m`, `sunset_h`. -/
structure SunPhaseRespose where
  responseID : String
  sunriseM : Int
  sunriseH : Int
  sunsetM : Int
  sunsetH : Int
deriving DecidableEq, Repr

/-- `jsonapi.MediaType`. -/
def jsonapiMediaType : String := "application/vnd.api+json"

/-- Model of `jsonapi.MarshalPayload` on a `*SunPhaseRespose`: the jsonapi
document with top-level `data` of type `sun_phase`, `id` the response ID,
and the four integer attributes.  For this struct (plain string and int
fields) marshalling cannot fail, so it is modelled as a total function. -/
def marshalPayload (r : SunPhaseRespose) : String :=
  "\x7b\"data\":\x7b\"type\":\"sun_phase\",\"id\":\"" ++ r.responseID ++
    "\",\"attributes\":\x7b\"sunrise_h\":" ++ toString r.sunriseH ++
    ",\"sunrise_m\":" ++ toString r.sunriseM ++
    ",\"sunset_h\":" ++ toString r.sunsetH ++
    ",\"sunset_m\":" ++ toString r.sunsetM ++ "\x7d\x7d\x7d"

/-- Model of `jsonapi.MarshalErrors` on one error object: the jsonapi
`errors` document (the `code` member is omitted when empty, per
`omitempty`). -/
def marshalErrObject (e : ErrorObject) : String :=
  "\x7b\"title\":\"" ++ e.title ++ "\",\"detail\":\"" ++ e.detail ++
    "\",\"status\":\"" ++ e.status ++ "\"" ++
    (if e.code = "" then "" else ",\"code\":\"" ++ e.code ++ "\"") ++ "\x7d"

/-- Model of `jsonapi.MarshalErrors` on a list of error objects. -/
def marshalErrors (es : List ErrorObject) : String :=
  "\x7b\"errors\":[" ++ String.intercalate "," (es.map marshalErrObject) ++ "]\x7d"

/-- Result of `env.redis.Get(cacheKey).Result()`: a stored value, the
`redis.Nil` not-found signal, or any other error. -/
inductive RedisGetResult where
  | ok (val : String) : RedisGetResult
  | nil : RedisGetResult
  | err (e : String) : RedisGetResult
deriving DecidableEq, Repr

/-- `true` exactly when the cache read did not deliver a stored value, i.e.
the handler proceeds to the upstream fetch. -/
def RedisGetResult.isMiss : RedisGetResult → Bool
  | .ok _ => false
  | .nil => true
  | .err _ => true

/-- An attempted `env.redis.Set(key, value, ttl)` call. -/
structure CacheSet where
  key : String
  value : String
  ttlHours : Nat
deriving DecidableEq, Repr

/-- The observable effects of one `handleSunPhase` invocation:
`status` is the transport status (200 unless `WriteHeader` ran),
`contentType` the `Content-Type` header if set, `body` everything written
to the response writer in order, `emittedErrors` the error documents built
by `makeErrorResponse` during the run, `record` the `SunPhaseRespose`
struct built on the miss path, `cacheWrite` the attempted `redis.Set`
(key, value, TTL), `upstreamCalled` whether `getWUAstronomy` was invoked,
and `logs` the `log.Println` lines. -/
structure HandlerResult where
  status : Int
  contentType : Option String
  body : String
  emittedErrors : List ErrorObject
  record : Option SunPhaseRespose
  cacheWrite : Option CacheSet
  upstreamCalled : Bool
  logs : List String
deriving DecidableEq, Repr

/-- The body of `handleSunPhase` in `main.go`, with the results of the
collaborator calls supplied as oracles: `cacheGet` is the redis `Get`
outcome, `astro` the `(WUAstronomy, error)` pair returned by the
`getWUAstronomy` call (when the miss path invokes it), `cacheSetErr` the
error of the redis `Set` (`none` = write succeeded).  The source's
fall-through after the fetch-error 500 is reproduced exactly: no `return`
follows `makeErrorResponse(response, 500, err.Error(), 0)`, so the run
continues, builds the record from the zero-valued fields, writes the cache
and appends the success payload after the error document. -/
def handleSunPhase (cfg : Config) (today : Date) (method : String)
    (cacheGet : RedisGetResult)
    (astro : WUAstronomy × Option String)
    (cacheSetErr : Option String) : HandlerResult :=
  if method = "GET" then
    let cacheKey := mkCacheKey cfg.redisPfx today
    match cacheGet with
    | .ok cacheVal =>
      { status := 200, contentType := some jsonapiMediaType, body := cacheVal
        emittedErrors := [], record := none, cacheWrite := none
        upstreamCalled := false, logs := [] }
    | other =>
      let readLogs :=
        match other with
        | .err e => ["Error reading cache: %s " ++ e]
        | _ => []
      let (astronomy, resErr) := astro
      let (errs, errBody, st) :=
        match resErr with
        | some e =>
          let eo := makeErrorResponse 500 e 0
          ([eo], marshalErrors [eo], (500 : Int))
        | none => ([], "", 200)
      let sunriseH := atoiIgnoreErr astronomy.sunPhase.sunrise.hour
      let sunriseM := atoiIgnoreErr astronomy.sunPhase.sunrise.minute
      let sunsetH := atoiIgnoreErr astronomy.sunPhase.sunset.hour
      let sunsetM := atoiIgnoreErr astronomy.sunPhase.sunset.minute
      let responseObj : SunPhaseRespose :=
        { responseID := cacheKey, sunriseH := sunriseH, sunriseM := sunriseM
          sunsetH := sunsetH, sunsetM := sunsetM }
      let eventPayload := marshalPayload responseObj
      let writeLogs :=
        match cacheSetErr with
        | some ce => ["Error commiting to cache: %s " ++ ce]
        | none => []
      { status := st
        contentType := some jsonapiMediaType
        body := errBody ++ eventPayload
        emittedErrors := errs
        record := some responseObj
        cacheWrite := some { key := cacheKey, value := eventPayload, ttlHours := 168 }
        upstreamCalled := true
        logs := readLogs ++ writeLogs }
  else
    let eo := makeErrorResponse 405 method 0
    { status := 405, contentType := some jsonapiMediaType
      body := marshalErrors [eo], emittedErrors := [eo], record := none
      cacheWrite := none, upstreamCalled := false, logs := [] }

/-- `handleSunPhase` composed with the actual `getWUAstronomy` pipeline
(the source call `getWUAstronomy(env.config.WUndergroundKey, "astronomy",
env.config.WUndergroundLocation)`): when the miss path invokes the
upstream, a transport or body-read failure terminates the process
(`fatal`), otherwise the handler body runs on the returned pair. -/
def handleSunPhaseFull (cfg : Config) (today : Date) (method : String)
    (cacheGet : RedisGetResult)
    (decode : String → WUAstronomy × Option String)
    (httpGet : String → Except String Unit) (readAll : Except String String)
    (cacheSetErr : Option String) : ProcResult HandlerResult :=
  if method = "GET" then
    match cacheGet with
    | .ok _ =>
      .ok (handleSunPhase cfg today method cacheGet (WUAstronomy.zero, none) cacheSetErr)
    | _ =>
      match getWUAstronomy cfg.wUndergroundKey "astronomy" cfg.wUndergroundLocation
          decode httpGet readAll with
      | .fatal m => .fatal m
      | .ok astro => .ok (handleSunPhase cfg today method cacheGet astro cacheSetErr)
  else
    .ok (handleSunPhase cfg today method cacheGet (WUAstronomy.zero, none) cacheSetErr)

/-- Spec-side model (for the refinement comparison of the error envelope):
the status-title table exactly as the specification lists it. -/
def specStatusTitles : List (Int × String) :=
  [(400, "Bad Request"), (401, "Unauthorized"), (404, "Not Found"),
   (405, "Method Not Allowed"), (406, "Not Acceptable"), (409, "Conflict"),
   (415, "Unsupported Media Type"), (422, "Unprocessable Entity"),
   (500, "Internal Server Error")]

/-- Spec-side model: the domain-code title table exactly as the
specification lists it. -/
def specCodeTitles : List (Int × String) :=
  [(1, "Malformed JSON Body"), (2201, "Missing Required Attribute"),
   (2202, "Requested Relationship Not Found")]

/-- Lookup in a spec table; absent keys give the empty title, matching a Go
map's zero value. -/
def lookupTable (t : List (Int × String)) (k : Int) : String :=
  ((t.find? fun p => p.1 = k).map Prod.snd).getD ""

/-- Spec-side model of the error document contract of §4.3: `status` is the
string form of the status code, `title` is looked up by the domain code
when non-zero and by the status code otherwise, `code` is the string form
of the domain code when non-zero and absent (`none`) otherwise, `detail`
is passed through verbatim. -/
structure SpecErrorDoc where
  status : String
  title : String
  code : Option String
  detail : String
deriving DecidableEq, Repr

/-- The spec's error-envelope builder, written from the words of §4.3. -/
def specErrorDoc (status : Int) (code : Int) (detail : String) : SpecErrorDoc :=
  { status := toString status
    title := if code ≠ 0 then lookupTable specCodeTitles code
             else lookupTable specStatusTitles status
    code := if code ≠ 0 then some (toString code) else none
    detail := detail }

/-- A fixed config value used by the concrete witnesses. -/
def cfgEx : Config :=
  { httpPort := ":8080", redisAddr := "localhost:6379", redisDB := 0
    redisPassword := "", redisPfx := "ph:", wUndergroundKey := "k"
    wUndergroundLocation := "CA/San_Francisco" }

/-- A fixed date value used by the concrete witnesses. -/
def dateEx : Date := { year := 2024, month := 3, day := 15 }


/-- The source's `statusTitle` map agrees with the spec's status table. -/
theorem statusTitle_agrees (s : Int) : statusTitle s = lookupTable specStatusTitles s := by
  simp only [statusTitle, lookupTable, specStatusTitles, List.find?]
  split_ifs <;> simp_all [eq_comm]

/-- The source's `codeTitle` map agrees with the spec's domain-code table. -/
theorem codeTitle_agrees (c : Int) : codeTitle c = lookupTable specCodeTitles c := by
  simp only [codeTitle, lookupTable, specCodeTitles, List.find?]
  split_ifs <;> simp_all [eq_comm]

/-- Any `ok` return of `getWUApiRepose` carries a `nil` error: the error
assignments are followed by `log.Fatal`, which never returns. -/
theorem getWUApiRepose_ok_none {key feature location : String}
    {httpGet : String → Except String Unit} {readAll : Except String String}
    {body : String} {resErr : Option String}
    (h : getWUApiRepose key feature location httpGet readAll = .ok (body, resErr)) :
    resErr = none := by
  simp only [getWUApiRepose] at h
  split at h
  · cases h
  · split at h
    · cases h
    · cases h; rfl

/-- Any `ok` return of `getWUAstronomy` carries a `nil` error. -/
theorem getWUAstronomy_ok_none {key feature location : String}
    {decode : String → WUAstronomy × Option String}
    {httpGet : String → Except String Unit} {readAll : Except String String}
    {a : WUAstronomy} {resErr : Option String}
    (h : getWUAstronomy key feature location decode httpGet readAll = .ok (a, resErr)) :
    resErr = none := by
  rcases hg : getWUApiRepose key feature location httpGet readAll with m | ⟨body, rE⟩
  · simp only [getWUAstronomy, hg] at h
    cases h
  · have hn : rE = none := getWUApiRepose_ok_none hg
    subst hn
    simp only [getWUAstronomy, hg] at h
    cases h; rfl

/-- On a GET request with a stored cache value, the composed handler reduces
to the hit branch of `handleSunPhase` (the upstream pipeline is not run). -/
theorem handleSunPhaseFull_hit {cfg : Config} {d : Date} {v : String}
    {decode : String → WUAstronomy × Option String} {httpGet : String → Except String Unit}
    {readAll : Except String String} {wErr : Option String} :
    handleSunPhaseFull cfg d "GET" (.ok v) decode httpGet readAll wErr =
      .ok (handleSunPhase cfg d "GET" (.ok v) (WUAstronomy.zero, none) wErr) := by
  simp [handleSunPhaseFull]

/-- On a GET request whose cache read misses (or errors), the composed
handler runs the `getWUAstronomy` pipeline and feeds its result to the
handler body. -/
theorem handleSunPhaseFull_miss {cfg : Config} {d : Date} {cg : RedisGetResult}
    {decode : String → WUAstronomy × Option String} {httpGet : String → Except String Unit}
    {readAll : Except String String} {wErr : Option String}
    (hcg : cg.isMiss = true) :
    handleSunPhaseFull cfg d "GET" cg decode httpGet readAll wErr =
      (match getWUAstronomy cfg.wUndergroundKey "astronomy" cfg.wUndergroundLocation
          decode httpGet readAll with
      | .fatal m => .fatal m
      | .ok astro => .ok (handleSunPhase cfg d "GET" cg astro wErr)) := by
  cases cg <;> simp_all [handleSunPhaseFull, RedisGetResult.isMiss]

/-- The handler result of a plain cache-miss GET at the witness config and
date, used by the concrete witnesses below. -/
def rEx : HandlerResult :=
  handleSunPhase cfgEx dateEx "GET" .nil (WUAstronomy.zero, none) none

/-- C1: the claim says that when the astronomy invocation returns an error
the handler emits the 500 document with the underlying message as detail
and then stops, with no cache write and no success body.  Evaluating the
embedded handler at such an input shows the 500 document is emitted with
the right detail, but the run does not stop: the cache write still happens
and the success payload is appended to the response body after the error
document (the fall-through defect the specification itself flags). -/
theorem fetch_error_falls_through :
    (handleSunPhase cfgEx dateEx "GET" .nil
        (WUAstronomy.zero, some "connection refused") none).emittedErrors =
      [makeErrorResponse 500 "connection refused" 0] ∧
    (makeErrorResponse 500 "connection refused" 0).detail = "connection refused" ∧
    (makeErrorResponse 500 "connection refused" 0).status = "500" ∧
    (handleSunPhase cfgEx dateEx "GET" .nil
        (WUAstronomy.zero, some "connection refused") none).cacheWrite =
      some { key := mkCacheKey "ph:" dateEx
             value := marshalPayload
               { responseID := mkCacheKey "ph:" dateEx
                 sunriseM := 0, sunriseH := 0, sunsetM := 0, sunsetH := 0 }
             ttlHours := 168 } ∧
    (handleSunPhase cfgEx dateEx "GET" .nil
        (WUAstronomy.zero, some "connection refused") none).body =
      marshalErrors [makeErrorResponse 500 "connection refused" 0] ++
        marshalPayload
          { responseID := mkCacheKey "ph:" dateEx
            sunriseM := 0, sunriseH := 0, sunsetM := 0, sunsetH := 0 } := by
  decide

/-- C2: for every key pre-string and date, the cache key is that string
followed by "weather:sun_phase:" and the year, the month, and the day
joined by "-", a pure function of the two inputs; concretely, "ph:" on
2024-03-15 gives "ph:weather:sun_phase:2024-March-15", the month rendered
as its spelled-out name. -/
theorem cache_key_format (pfx : String) (d : Date) :
    mkCacheKey pfx d =
      pfx ++ "weather:sun_phase:" ++ toString d.year ++ "-" ++
        monthName d.month ++ "-" ++ toString d.day ∧
    mkCacheKey "ph:" { year := 2024, month := 3, day := 15 } =
      "ph:weather:sun_phase:2024-March-15" :=
  ⟨rfl, by decide⟩

/-- C3: for every GET request whose cache read succeeds, the handler
returns the stored string verbatim as the body with the jsonapi media
type, emits no error, builds no record (no re-parsing), performs no cache
write and does not invoke the upstream pipeline (the result is the same
for every upstream oracle). -/
theorem cache_hit_verbatim (cfg : Config) (d : Date) (v : String)
    (decode : String → WUAstronomy × Option String) (httpGet : String → Except String Unit)
    (readAll : Except String String) (wErr : Option String) :
    handleSunPhaseFull cfg d "GET" (.ok v) decode httpGet readAll wErr =
      .ok { status := 200, contentType := some jsonapiMediaType, body := v
            emittedErrors := [], record := none, cacheWrite := none
            upstreamCalled := false, logs := [] } := by
  simp [handleSunPhaseFull, handleSunPhase]

/-- C4: the error envelope builder agrees with the spec contract of §4.3:
status is the decimal string of the status code, the title is looked up in
the domain-code table when the code is non-zero and in the status table
otherwise (both tables exactly as the spec lists them), the code member is
the decimal string of the domain code when non-zero and absent otherwise,
and the detail is passed through verbatim. -/
theorem makeErrorResponse_matches_spec (status code : Int) (detail : String) :
    (makeErrorResponse status detail code).status = (specErrorDoc status code detail).status ∧
    (makeErrorResponse status detail code).title = (specErrorDoc status code detail).title ∧
    (makeErrorResponse status detail code).detail = (specErrorDoc status code detail).detail ∧
    ((code = 0 ∧ (makeErrorResponse status detail code).code = "" ∧
        (specErrorDoc status code detail).code = none) ∨
     (code ≠ 0 ∧ (specErrorDoc status code detail).code =
        some (makeErrorResponse status detail code).code)) := by
  by_cases h : code = 0 <;>
    simp [makeErrorResponse, specErrorDoc, h, statusTitle_agrees, codeTitle_agrees]

/-- Witness for C4 at a concrete input. -/
theorem makeErrorResponse_matches_spec_witness :
    (makeErrorResponse 405 "POST" 0).status = (specErrorDoc 405 0 "POST").status ∧
    (makeErrorResponse 405 "POST" 0).title = (specErrorDoc 405 0 "POST").title ∧
    (makeErrorResponse 405 "POST" 0).detail = (specErrorDoc 405 0 "POST").detail ∧
    (((0 : Int) = 0 ∧ (makeErrorResponse 405 "POST" 0).code = "" ∧
        (specErrorDoc 405 0 "POST").code = none) ∨
     ((0 : Int) ≠ 0 ∧ (specErrorDoc 405 0 "POST").code =
        some (makeErrorResponse 405 "POST" 0).code)) :=
  makeErrorResponse_matches_spec 405 0 "POST"

/-- The concrete shape-mismatch body for the C5 counterexample: valid JSON
in which `hour` carries a JSON number where the struct expects a string. -/
def bodyMismatchEx : String :=
  "\x7b\"sun_phase\":\x7b\"sunrise\":\x7b\"hour\":7,\"minute\":\"30\"\x7d\x7d\x7d"

/-- `json.Unmarshal` into `WUAstronomy` on `bodyMismatchEx`, per the
documented behavior on a field type mismatch inside valid JSON: the
offending `hour` field is skipped and reported in an `UnmarshalTypeError`,
while the sibling `minute` is still populated.  Any other body is treated
as undecodable here (irrelevant to the counterexample). -/
def decodeMismatchEx : String → WUAstronomy × Option String := fun body =>
  if body = bodyMismatchEx then
    ({ sunPhase := { sunrise := { hour := "", minute := "30" }
                     sunset := { hour := "", minute := "" } } },
     some "json: cannot unmarshal number into Go struct field WUTime.sun_phase.sunrise.hour of type string")
  else (WUAstronomy.zero, some "json: invalid body")

/-- C5 counterexample: `bodyMismatchEx` is not well-formed JSON of the
expected shape (the decoder errors on it), `getWUAstronomy` indeed returns
no error — but the struct is not zero-valued: the decodable `minute` field
survives, and the handler builds a record with `sunriseM = 30`, not 0.
This refutes the zero-valued-fields part of the claim as stated. -/
theorem malformed_body_partial_fields_counterexample :
    (decodeMismatchEx bodyMismatchEx).2.isSome = true ∧
    getWUAstronomy "k" "astronomy" "loc" decodeMismatchEx (fun _ => .ok ())
        (.ok bodyMismatchEx) = .ok ((decodeMismatchEx bodyMismatchEx).1, none) ∧
    (handleSunPhase cfgEx dateEx "GET" .nil
        ((decodeMismatchEx bodyMismatchEx).1, none) none).record =
      some { responseID := mkCacheKey cfgEx.redisPfx dateEx
             sunriseM := 30, sunriseH := 0, sunsetM := 0, sunsetH := 0 } ∧
    (30 : Int) ≠ 0 := by
  refine ⟨rfl, rfl, by decide, by decide⟩

/-- C5 (amended): for every upstream body the decoder rejects, the
Astronomy Client still returns a nil error and yields exactly the struct
the decoder populated, rather than failing; when the decoder populates
nothing — as on a syntactically invalid body, which leaves the zero
value — the handler builds a record with zero-valued hour and minute
integers.  (Bodies that are valid JSON with a mismatched field type may be
partially populated, per the counterexample.) -/
theorem malformed_body_no_error (key feature location body : String)
    (decode : String → WUAstronomy × Option String)
    (e : String) (_hdec : (decode body).2 = some e)
    (cfg : Config) (d : Date) (cg : RedisGetResult) (hcg : cg.isMiss = true)
    (wErr : Option String) :
    getWUAstronomy key feature location decode (fun _ => .ok ()) (.ok body) =
      .ok ((decode body).1, none) ∧
    ((decode body).1 = WUAstronomy.zero →
      (handleSunPhase cfg d "GET" cg ((decode body).1, none) wErr).record =
        some { responseID := mkCacheKey cfg.redisPfx d
               sunriseM := 0, sunriseH := 0, sunsetM := 0, sunsetH := 0 }) := by
  constructor
  · simp [getWUAstronomy, getWUApiRepose]
  · intro hz
    rw [hz]
    have h0 : atoiIgnoreErr "" = 0 := by decide
    cases cg <;> cases wErr <;>
      simp_all [handleSunPhase, WUAstronomy.zero, RedisGetResult.isMiss]

/-- Witness for C5 (amended) at a concrete undecodable body. -/
theorem malformed_body_no_error_witness :
    ((fun _ : String => (WUAstronomy.zero, some "json: invalid body")) "nonsense").2 =
      some "json: invalid body" ∧
    RedisGetResult.isMiss .nil = true ∧
    (handleSunPhase cfgEx dateEx "GET" .nil (WUAstronomy.zero, none) none).record =
      some { responseID := mkCacheKey cfgEx.redisPfx dateEx
             sunriseM := 0, sunriseH := 0, sunsetM := 0, sunsetH := 0 } :=
  ⟨rfl, rfl,
   (malformed_body_no_error "k" "astronomy" "loc" "nonsense"
      (fun _ => (WUAstronomy.zero, some "json: invalid body")) "json: invalid body" rfl
      cfgEx dateEx .nil rfl none).2 rfl⟩

/-- C6: transport-level failures never reach the 500 branch of the handler:
an `http.Get` or body-read error makes `getWUApiRepose` fatal (the process
terminates), every returned result of `getWUApiRepose` and of
`getWUAstronomy` carries a nil error, and consequently every GET request
the composed handler completes emits no error document at all. -/
theorem fetch_error_branch_unreachable (key feature location : String)
    (httpGet : String → Except String Unit) (readAll : Except String String)
    (decode : String → WUAstronomy × Option String) :
    (∀ body resErr, getWUApiRepose key feature location httpGet readAll =
        .ok (body, resErr) → resErr = none) ∧
    (∀ a resErr, getWUAstronomy key feature location decode httpGet readAll =
        .ok (a, resErr) → resErr = none) ∧
    ((∃ e, httpGet (wuURL key feature location) = .error e) ∨
        (∃ e, readAll = .error e) →
      ∃ m, getWUApiRepose key feature location httpGet readAll = .fatal m) ∧
    (∀ (cfg : Config) (d : Date) (cg : RedisGetResult) (wErr : Option String)
        (r : HandlerResult),
      handleSunPhaseFull cfg d "GET" cg decode httpGet readAll wErr = .ok r →
      r.emittedErrors = []) := by
  refine ⟨?_, ?_, ?_, ?_⟩
  · intro body resErr h
    exact getWUApiRepose_ok_none h
  · intro a resErr h
    exact getWUAstronomy_ok_none h
  · rintro (⟨e, he⟩ | ⟨e, he⟩)
    · exact ⟨e, by simp [getWUApiRepose, he]⟩
    · rcases hg : httpGet (wuURL key feature location) with e2 | u
      · exact ⟨e2, by simp [getWUApiRepose, hg]⟩
      · exact ⟨e, by simp [getWUApiRepose, hg, he]⟩
  · intro cfg d cg wErr r hr
    cases hm : cg.isMiss with
    | false =>
      cases cg with
      | ok v =>
        rw [handleSunPhaseFull_hit] at hr
        cases hr
        simp [handleSunPhase]
      | nil => simp [RedisGetResult.isMiss] at hm
      | err e => simp [RedisGetResult.isMiss] at hm
    | true =>
      rw [handleSunPhaseFull_miss hm] at hr
      rcases hg : getWUAstronomy cfg.wUndergroundKey "astronomy"
          cfg.wUndergroundLocation decode httpGet readAll with m | ⟨a, rE⟩ <;>
        rw [hg] at hr
      · cases hr
      · have hn : rE = none := getWUAstronomy_ok_none hg
        subst hn
        cases hr
        cases cg <;> cases wErr <;> simp_all [handleSunPhase, RedisGetResult.isMiss]

/-- Witness for C6: a concrete connection error is fatal, and a concrete
completed GET emits no error document. -/
theorem fetch_error_branch_unreachable_witness :
    (∃ m, getWUApiRepose "k" "astronomy" "loc"
        (fun _ => .error "dial tcp: connection refused") (.ok "") = .fatal m) ∧
    rEx.emittedErrors = [] :=
  ⟨(fetch_error_branch_unreachable "k" "astronomy" "loc"
        (fun _ => .error "dial tcp: connection refused") (.ok "")
        (fun _ => (WUAstronomy.zero, none))).2.2.1
      (.inl ⟨"dial tcp: connection refused", rfl⟩),
   (fetch_error_branch_unreachable "k" "astronomy" "loc"
        (fun _ => .ok ()) (.ok "body") (fun _ => (WUAstronomy.zero, none))).2.2.2 cfgEx dateEx .nil none
      rEx rfl⟩

/-- A cleanly parsed `atoi` value corresponds to a `goAtoi` return with a
`nil` error. -/
theorem atoi_eq_some {s : String} {i : Int} (h : atoi s = some i) :
    goAtoi s = (i, none) := by
  unfold atoi at h
  rcases hg : goAtoi s with ⟨v, e⟩
  rw [hg] at h
  cases e with
  | none =>
    simp at h
    rw [h]
  | some e2 => simp at h

/-- C7: if any of REDIS_ADDR, WU_KEY, WU_LOCATION is absent, `collectConfig`
terminates the process reporting every missing name at once in check
order; when all three are missing the single message lists them as
REDIS_ADDR, WU_KEY, WU_LOCATION; with all three present it returns a
populated Config.  (The hypothesis pins REDIS_DB to unset or parseable;
a malformed REDIS_DB makes the source terminate earlier with a parse
message, outside the scope of the claim.) -/
theorem collectConfig_required (env : EnvMap)
    (hdb : env "REDIS_DB" = "" ∨ (atoi (env "REDIS_DB")).isSome) :
    (missingEnvOf env ≠ [] →
      collectConfig env =
        .fatal ("Environment variables missing: " ++ goFmtStrSlice (missingEnvOf env))) ∧
    (env "REDIS_ADDR" = "" → env "WU_KEY" = "" → env "WU_LOCATION" = "" →
      collectConfig env =
        .fatal "Environment variables missing: [REDIS_ADDR WU_KEY WU_LOCATION]") ∧
    (missingEnvOf env = [] →
      ∃ cfg, collectConfig env = .ok cfg ∧
        cfg.redisAddr = env "REDIS_ADDR" ∧
        cfg.wUndergroundKey = env "WU_KEY" ∧
        cfg.wUndergroundLocation = env "WU_LOCATION") := by
  refine ⟨?_, ?_, ?_⟩
  · intro hne
    rcases hdb with hdb | hdb
    · simp [collectConfig, hdb, hne]
    · obtain ⟨i, hi⟩ := Option.isSome_iff_exists.mp hdb
      have hne2 : ¬ env "REDIS_DB" = "" := by
        intro h
        rw [h] at hi
        have h0 : atoi "" = none := rfl
        rw [h0] at hi
        cases hi
      have hgo : goAtoi (env "REDIS_DB") = (i, none) := atoi_eq_some hi
      simp [collectConfig, hne2, hgo, hne]
  · intro h1 h2 h3
    have hm : missingEnvOf env = ["REDIS_ADDR", "WU_KEY", "WU_LOCATION"] := by
      simp [missingEnvOf, h1, h2, h3]
    have hne : missingEnvOf env ≠ [] := by simp [hm]
    rcases hdb with hdb | hdb
    · simp [collectConfig, hdb, hne, hm, goFmtStrSlice]
      decide
    · obtain ⟨i, hi⟩ := Option.isSome_iff_exists.mp hdb
      have hne2 : ¬ env "REDIS_DB" = "" := by
        intro h
        rw [h] at hi
        have h0 : atoi "" = none := rfl
        rw [h0] at hi
        cases hi
      have hgo : goAtoi (env "REDIS_DB") = (i, none) := atoi_eq_some hi
      simp [collectConfig, hne2, hgo, hne, hm, goFmtStrSlice]
      decide
  · intro hm
    rcases hdb with hdb | hdb
    · exact ⟨{ httpPort := if env "HTTP_PORT" = "" then ":8080" else ":" ++ env "HTTP_PORT"
               redisAddr := env "REDIS_ADDR"
               redisDB := 0
               redisPassword := env "REDIS_PASSWORD"
               redisPfx := if env "REDIS_PREFIX" = "" then "ph:" else env "REDIS_PREFIX"
               wUndergroundKey := env "WU_KEY"
               wUndergroundLocation := env "WU_LOCATION" },
             by simp [collectConfig, hdb, hm], rfl, rfl, rfl⟩
    · obtain ⟨i, hi⟩ := Option.isSome_iff_exists.mp hdb
      have hne2 : ¬ env "REDIS_DB" = "" := by
        intro h
        rw [h] at hi
        have h0 : atoi "" = none := rfl
        rw [h0] at hi
        cases hi
      have hgo : goAtoi (env "REDIS_DB") = (i, none) := atoi_eq_some hi
      exact ⟨{ httpPort := if env "HTTP_PORT" = "" then ":8080" else ":" ++ env "HTTP_PORT"
               redisAddr := env "REDIS_ADDR"
               redisDB := i
               redisPassword := env "REDIS_PASSWORD"
               redisPfx := if env "REDIS_PREFIX" = "" then "ph:" else env "REDIS_PREFIX"
               wUndergroundKey := env "WU_KEY"
               wUndergroundLocation := env "WU_LOCATION" },
             by simp [collectConfig, hne2, hgo, hm], rfl, rfl, rfl⟩

/-- Witness for C7: the fully empty environment reports all three names in
order. -/
theorem collectConfig_required_witness :
    ((fun _ : String => "") "REDIS_DB" = "" ∨
      (atoi ((fun _ : String => "") "REDIS_DB")).isSome) ∧
    collectConfig (fun _ => "") =
      .fatal "Environment variables missing: [REDIS_ADDR WU_KEY WU_LOCATION]" :=
  ⟨.inl rfl,
   (collectConfig_required (fun _ => "") (.inl rfl)).2.1 rfl rfl rfl⟩

/-- C8: on every cache miss the completed handler writes, under the cache
key with a 168-hour TTL, exactly the body it returns; reading that value
back on a subsequent hit (any config, date and upstream oracles) returns
it byte-identical. -/
theorem miss_round_trip (cfg : Config) (d : Date) (cg : RedisGetResult)
    (hcg : cg.isMiss = true)
    (decode : String → WUAstronomy × Option String) (httpGet : String → Except String Unit)
    (readAll : Except String String) (wErr : Option String) (r : HandlerResult)
    (hr : handleSunPhaseFull cfg d "GET" cg decode httpGet readAll wErr = .ok r) :
    r.cacheWrite = some { key := mkCacheKey cfg.redisPfx d
                          value := r.body, ttlHours := 168 } ∧
    ∀ (cfg2 : Config) (d2 : Date) (decode2 : String → WUAstronomy × Option String)
      (httpGet2 : String → Except String Unit) (readAll2 : Except String String)
      (wErr2 : Option String),
      handleSunPhaseFull cfg2 d2 "GET" (.ok r.body) decode2 httpGet2 readAll2 wErr2 =
        .ok { status := 200, contentType := some jsonapiMediaType, body := r.body
              emittedErrors := [], record := none, cacheWrite := none
              upstreamCalled := false, logs := [] } := by
  rw [handleSunPhaseFull_miss hcg] at hr
  rcases hg : getWUAstronomy cfg.wUndergroundKey "astronomy"
      cfg.wUndergroundLocation decode httpGet readAll with m | ⟨a, rE⟩ <;>
    rw [hg] at hr
  · cases hr
  · have hn : rE = none := getWUAstronomy_ok_none hg
    subst hn
    cases hr
    constructor
    · cases cg <;> cases wErr <;> simp_all [handleSunPhase, RedisGetResult.isMiss]
    · intro cfg2 d2 decode2 httpGet2 readAll2 wErr2
      rw [handleSunPhaseFull_hit]
      simp [handleSunPhase]

/-- Witness for C8: a concrete completed miss stores exactly its body. -/
theorem miss_round_trip_witness :
    RedisGetResult.isMiss .nil = true ∧
    rEx.cacheWrite = some { key := mkCacheKey cfgEx.redisPfx dateEx
                            value := rEx.body, ttlHours := 168 } :=
  ⟨rfl,
   (miss_round_trip cfgEx dateEx .nil rfl (fun _ => (WUAstronomy.zero, none))
      (fun _ => .ok ()) (.ok "b")
      none rEx rfl).1⟩

/-- C9: a cache read failure other than the not-found signal is logged and
the request proceeds exactly as a miss: the upstream fetch is invoked and
the result differs from the plain-miss result only by the extra log
line. -/
theorem cache_read_error_is_miss (cfg : Config) (d : Date) (e : String)
    (astro : WUAstronomy × Option String) (wErr : Option String) :
    ("Error reading cache: %s " ++ e) ∈
      (handleSunPhase cfg d "GET" (.err e) astro wErr).logs ∧
    (handleSunPhase cfg d "GET" (.err e) astro wErr).upstreamCalled = true ∧
    handleSunPhase cfg d "GET" (.err e) astro wErr =
      { handleSunPhase cfg d "GET" .nil astro wErr with
        logs := ("Error reading cache: %s " ++ e) ::
          (handleSunPhase cfg d "GET" .nil astro wErr).logs } := by
  obtain ⟨a, resErr⟩ := astro
  cases resErr <;> cases wErr <;> simp [handleSunPhase]

/-- C10: every non-GET request gets a 405 error document whose detail is
the received method name; a POST yields status 405 with detail "POST". -/
theorem non_get_405 (cfg : Config) (d : Date) (method : String)
    (cacheGet : RedisGetResult) (astro : WUAstronomy × Option String)
    (wErr : Option String) (h : method ≠ "GET") :
    (handleSunPhase cfg d method cacheGet astro wErr).status = 405 ∧
    (handleSunPhase cfg d method cacheGet astro wErr).emittedErrors =
      [makeErrorResponse 405 method 0] ∧
    (makeErrorResponse 405 method 0).detail = method ∧
    (makeErrorResponse 405 method 0).status = "405" := by
  have hs : (toString (405 : Int)) = "405" := by decide
  simp [handleSunPhase, h, makeErrorResponse, hs]

/-- Witness for C10 at a concrete POST. -/
theorem non_get_405_witness :
    ("POST" : String) ≠ "GET" ∧
    ((handleSunPhase cfgEx dateEx "POST" .nil (WUAstronomy.zero, none) none).status = 405 ∧
     (handleSunPhase cfgEx dateEx "POST" .nil (WUAstronomy.zero, none) none).emittedErrors =
       [makeErrorResponse 405 "POST" 0] ∧
     (makeErrorResponse 405 "POST" 0).detail = "POST" ∧
     (makeErrorResponse 405 "POST" 0).status = "405") :=
  ⟨by decide, non_get_405 cfgEx dateEx "POST" .nil (WUAstronomy.zero, none) none (by decide)⟩
